import Mathlib

set_option maxRecDepth 100000

/-!
Verification of the HAND metadata database loader (`src/load.py`).

The development shallowly embeds the loader's data model and operations:

* pure string helpers mirror Python's `str.endswith`, the `in` operator and
  `str.split("/")`;
* `uuid5` is a full executable embedding of `uuid.uuid5` over
  `uuid.NAMESPACE_DNS` (SHA-1 implemented on `Nat` bytes/words with explicit
  `% 2^32` reductions), used by `generate_deterministic_uuid` / `_generate_uuid`;
* catchment-unit discovery (`_get_catchment_dirs`) is embedded per backend:
  `s3CatchmentDirs` for the object-store branch over flat keys and
  `localCatchmentDirs` for the local-filesystem branch over a directory tree;
* the per-catchment load pipeline (`load_catchment_geometry`,
  `load_hydrotables`, `load_rasters`, `_cleanup_catchment`, `load_hand_data`)
  is embedded as explicit state passing over a `DB` record, with fallible
  external calls (directory listing, file parsing, SQL execute) supplied by an
  `Env` record and failures propagated through `Except`;
* the Python local variable `catchment_id` of `load_hand_data` — assigned
  inside the `try:` body and read in the `except:` handler — is modelled
  explicitly by `PyVar`, including CPython's unbound/stale-binding behaviour.
-/

/-! ## String helpers (Python `endswith`, `in`, `split("/")`, `"/".join`) -/

/-- Python's `pat in s` on character lists: `pat` occurs contiguously in `l`. -/
def containsSeq (pat : List Char) : List Char → Bool
  | [] => pat.isEmpty
  | c :: t => pat.isPrefixOf (c :: t) || containsSeq pat t

/-- Python `name.endswith(ext) and pattern in name`, the filename filter used
by `_get_files`. -/
def matchesFilter (ext pat name : String) : Bool :=
  ext.data.isSuffixOf name.data && containsSeq pat.data name.data

/-- Python `s.split("/")` (single-character separator). -/
def pySplitSlash (s : String) : List String :=
  (s.data.foldr
    (fun c acc =>
      if c = '/' then [] :: acc
      else
        match acc with
        | [] => [[c]]
        | a :: as_ => (c :: a) :: as_)
    [[]]).map fun cs => String.mk cs

/-- Python `"/".join(parts)`. -/
def joinPath : List String → String
  | [] => ""
  | [x] => x
  | x :: y :: t => x ++ "/" ++ joinPath (y :: t)

/-- Python `d.isdigit() and len(d) == 8`: an 8-digit region (HUC) code. -/
def isDigit8 (s : String) : Bool :=
  s.data.all (fun c => c.isDigit) && s.data.length == 8

/-! ## Deterministic UUIDs: `uuid.uuid5(uuid.NAMESPACE_DNS, s)`

SHA-1 over bytes represented as `Nat < 256`, words as `Nat < 2^32` with
explicit `% 2^32` reductions. -/

/-- UTF-8 encoding of one Unicode code point. -/
def utf8EncodeChar (c : Nat) : List Nat :=
  if c < 0x80 then [c]
  else if c < 0x800 then
    [0xC0 ||| (c >>> 6), 0x80 ||| (c &&& 0x3F)]
  else if c < 0x10000 then
    [0xE0 ||| (c >>> 12), 0x80 ||| ((c >>> 6) &&& 0x3F), 0x80 ||| (c &&& 0x3F)]
  else
    [0xF0 ||| (c >>> 18), 0x80 ||| ((c >>> 12) &&& 0x3F),
     0x80 ||| ((c >>> 6) &&& 0x3F), 0x80 ||| (c &&& 0x3F)]

/-- UTF-8 bytes of a string. -/
def utf8Bytes (s : String) : List Nat :=
  s.data.foldr (fun c acc => utf8EncodeChar c.toNat ++ acc) []

/-- Left rotation of a 32-bit word. -/
def rotl32 (x n : Nat) : Nat :=
  ((x <<< n) ||| (x >>> (32 - n))) % 4294967296

/-- SHA-1 message padding: `0x80`, zeros to 56 mod 64, 64-bit big-endian
bit length. -/
def sha1Pad (msg : List Nat) : List Nat :=
  let bitLen := msg.length * 8
  let k := (120 - ((msg.length + 1) % 64)) % 64
  msg ++ [0x80] ++ List.replicate k 0 ++
    (List.range 8).map (fun i => (bitLen >>> ((7 - i) * 8)) % 256)

/-- Split a byte list into 64-byte chunks (structural recursion on a fuel
bound so that the kernel can evaluate it; the fuel `l.length` always
suffices because every step consumes at least one element). -/
def chunks64Aux : Nat → List Nat → List (List Nat)
  | 0, _ => []
  | _, [] => []
  | fuel + 1, c :: t => ((c :: t).take 64) :: chunks64Aux fuel ((c :: t).drop 64)

/-- Split a byte list into 64-byte chunks. -/
def chunks64 (l : List Nat) : List (List Nat) :=
  chunks64Aux l.length l

/-- Big-endian 32-bit words from bytes. -/
def bytesToWords : List Nat → List Nat
  | a :: b :: c :: d :: rest =>
      (((a * 256 + b) * 256 + c) * 256 + d) :: bytesToWords rest
  | _ => []

/-- SHA-1 message-schedule extension from 16 to 80 words. -/
def sha1Schedule (ws : Array Nat) : Array Nat :=
  (List.range 64).foldl
    (fun a j =>
      let i := 16 + j
      let x := a.getD (i - 3) 0 ^^^ a.getD (i - 8) 0 ^^^
               a.getD (i - 14) 0 ^^^ a.getD (i - 16) 0
      a.push (rotl32 x 1))
    ws

/-- SHA-1 round function. -/
def sha1F (i b c d : Nat) : Nat :=
  if i < 20 then (b &&& c) ||| ((b ^^^ 0xFFFFFFFF) &&& d)
  else if i < 40 then b ^^^ c ^^^ d
  else if i < 60 then (b &&& c) ||| (b &&& d) ||| (c &&& d)
  else b ^^^ c ^^^ d

/-- SHA-1 round constants. -/
def sha1K (i : Nat) : Nat :=
  if i < 20 then 0x5A827999
  else if i < 40 then 0x6ED9EBA1
  else if i < 60 then 0x8F1BBCDC
  else 0xCA62C1D6

/-- SHA-1 compression of one 64-byte chunk. -/
def sha1Compress (h : Nat × Nat × Nat × Nat × Nat) (chunk : List Nat) :
    Nat × Nat × Nat × Nat × Nat :=
  let ws := sha1Schedule (Array.mk (bytesToWords chunk))
  let (h0, h1, h2, h3, h4) := h
  let r :=
    (List.range 80).foldl
      (fun st i =>
        let (a, b, c, d, e) := st
        let temp :=
          (rotl32 a 5 + sha1F i b c d + e + sha1K i + ws.getD i 0) % 4294967296
        (temp, a, rotl32 b 30, c, d))
      (h0, h1, h2, h3, h4)
  let (a, b, c, d, e) := r
  ((h0 + a) % 4294967296, (h1 + b) % 4294967296, (h2 + c) % 4294967296,
   (h3 + d) % 4294967296, (h4 + e) % 4294967296)

/-- Big-endian bytes of a 32-bit word. -/
def wordBytes (w : Nat) : List Nat :=
  [(w >>> 24) % 256, (w >>> 16) % 256, (w >>> 8) % 256, w % 256]

/-- SHA-1 digest (20 bytes) of a byte list. -/
def sha1 (msg : List Nat) : List Nat :=
  let (h0, h1, h2, h3, h4) :=
    (chunks64 (sha1Pad msg)).foldl sha1Compress
      (0x67452301, 0xEFCDAB89, 0x98BADCFE, 0x10325476, 0xC3D2E1F0)
  wordBytes h0 ++ wordBytes h1 ++ wordBytes h2 ++ wordBytes h3 ++ wordBytes h4

/-- The 16 bytes of `uuid.NAMESPACE_DNS`
(`6ba7b810-9dad-11d1-80b4-00c04fd430c8`). -/
def NAMESPACE_DNS : List Nat :=
  [0x6b, 0xa7, 0xb8, 0x10, 0x9d, 0xad, 0x11, 0xd1,
   0x80, 0xb4, 0x00, 0xc0, 0x4f, 0xd4, 0x30, 0xc8]

/-- Lowercase hex digit. -/
def hexDigit (n : Nat) : Char :=
  if n < 10 then Char.ofNat (48 + n) else Char.ofNat (87 + n)

/-- Two lowercase hex digits of a byte. -/
def byteHex (b : Nat) : List Char :=
  [hexDigit (b / 16 % 16), hexDigit (b % 16)]

/-- Lowercase hex string of a byte list. -/
def bytesHex (l : List Nat) : String :=
  String.mk (l.foldr (fun b acc => byteHex b ++ acc) [])

/-- RFC 4122 set version 5 and the variant bits on the 16 digest bytes. -/
def setVersion5Variant (bs : List Nat) : List Nat :=
  (List.range 16).map fun i =>
    let b := bs.getD i 0
    if i = 6 then (b &&& 0x0F) ||| 0x50
    else if i = 8 then (b &&& 0x3F) ||| 0x80
    else b

/-- The 8-4-4-4-12 textual form of 16 UUID bytes. -/
def uuidFormat (bs : List Nat) : String :=
  bytesHex (bs.take 4) ++ "-" ++ bytesHex ((bs.drop 4).take 2) ++ "-" ++
    bytesHex ((bs.drop 6).take 2) ++ "-" ++ bytesHex ((bs.drop 8).take 2) ++
    "-" ++ bytesHex (bs.drop 10)

/-- Library `uuid.uuid5(ns, name)`: SHA-1 of namespace bytes followed by the UTF-8
name, truncated to 16 bytes with version/variant bits set. -/
def uuid5 (ns : List Nat) (name : String) : String :=
  uuidFormat (setVersion5Variant ((sha1 (ns ++ utf8Bytes name)).take 16))

/-- Source `generate_deterministic_uuid` (src/load.py line 69):
`str(uuid.uuid5(uuid.NAMESPACE_DNS, input_string))`. -/
def generate_deterministic_uuid (input_string : String) : String :=
  uuid5 NAMESPACE_DNS input_string

/-- Source `_generate_uuid` (src/load.py line 572): same body as
`generate_deterministic_uuid`. -/
def _generate_uuid (input_str : String) : String :=
  uuid5 NAMESPACE_DNS input_str

/-- Sanity check of the `uuid5` embedding against CPython:
`str(uuid.uuid5(uuid.NAMESPACE_DNS, "python.org"))`. -/
theorem uuid5_cpython_test_vector :
    uuid5 NAMESPACE_DNS "python.org" = "886313e1-3b8a-5372-9b90-0c9aee199e5d" := by
  decide

/-! ## Catchment unit discovery: `_get_catchment_dirs` (src/load.py 73-119)

The S3 branch scans flat object keys; the local branch inspects a directory
tree.  The two branches are embedded separately, over their respective input
shapes. -/

/-- One object key's qualifying catchment prefixes, the body of the S3
branch's inner loop: for `i` ranging over `enumerate(parts[:-2])`, if
`parts[i]` is an 8-digit code and `parts[i+1] == "branches"`, collect
`"/".join(parts[:i+3])` when non-empty. -/
def s3UnitPaths (obj : String) : List String :=
  let parts := pySplitSlash obj
  (List.range (parts.length - 2)).filterMap fun i =>
    if isDigit8 (parts.getD i "") ∧ i + 1 < parts.length ∧
        parts.getD (i + 1) "" = "branches" then
      let catchment_path := joinPath (parts.take (i + 3))
      if catchment_path ≠ "" then some catchment_path else none
    else none

/-- Append-if-absent, modelling accumulation into the Python `set`. -/
def dedupAppend (acc : List String) (s : String) : List String :=
  if s ∈ acc then acc else acc ++ [s]

/-- The S3 branch of `_get_catchment_dirs`: collect the deduplicated
qualifying prefixes over all listed object keys and prepend the bucket. -/
def s3CatchmentDirs (bucket : String) (objects : List String) : List String :=
  (objects.foldl (fun acc obj => (s3UnitPaths obj).foldl dedupAppend acc)
      []).map
    fun d => "s3://" ++ bucket ++ "/" ++ d

/-- A local directory tree: `os.path.isdir` distinguishes the constructors,
`os.listdir` returns the child names of a `dir`. -/
inductive FsTree where
  | file : FsTree
  | dir : List (String × FsTree) → FsTree
deriving Repr

/-- Children of a node (empty for plain files). -/
def FsTree.childrenD : FsTree → List (String × FsTree)
  | .file => []
  | .dir cs => cs

/-- Library `os.path.isdir`. -/
def FsTree.isDir : FsTree → Bool
  | .file => false
  | .dir _ => true

/-- Look up a child entry by name. -/
def FsTree.child (t : FsTree) (name : String) : Option FsTree :=
  (t.childrenD.find? fun e => e.1 == name).map fun e => e.2

/-- The unit directories contributed by one top-level entry of the HAND root:
nothing unless the entry is an 8-digit directory with a `branches`
subdirectory; otherwise every directory under `branches`. -/
def localUnitDirs (base : String) (entry : String × FsTree) : List String :=
  if entry.2.isDir && isDigit8 entry.1 then
    match entry.2.child "branches" with
    | some tb =>
      if tb.isDir then
        (tb.childrenD.filter fun c => c.2.isDir).map
          fun c => base ++ "/" ++ entry.1 ++ "/branches/" ++ c.1
      else []
    | none => []
  else []

/-- The local branch of `_get_catchment_dirs`: for each 8-digit top-level
directory with a `branches` subdirectory, emit every directory under
`branches`. -/
def localCatchmentDirs (base : String) (root : FsTree) : List String :=
  root.childrenD.foldl (fun acc entry => acc ++ localUnitDirs base entry) []

/-! ## Data model: database rows, DB state, environment -/

/-- Abstract geometry values.  `leaf` is one geometry read from a file;
`union` mirrors shapely's `union` / `union_all` combination.  `wkt` is the
textual representation fed to `_generate_uuid` and to the INSERT. -/
inductive Geom where
  | leaf : String → Geom
  | union : Geom → Geom → Geom
deriving Repr, DecidableEq

/-- Textual (well-known-text) representation of a geometry. -/
def Geom.wkt : Geom → String
  | .leaf s => s
  | .union a b => "UNION(" ++ a.wkt ++ "," ++ b.wkt ++ ")"

/-- A row of the `Catchments` table. -/
structure CatchRow where
  catchment_id : String
  hand_version_id : String
  geometry : String
deriving Repr, DecidableEq

/-- A row of the `Hydrotables` table.  The ~30 hydraulic columns extracted by
`_prepare_hydro_params` are carried opaquely as the source CSV row (`payload`);
no claim inspects them.  The key columns set explicitly by
`_prepare_hydro_params` are `catchment_id` and `hand_version_id`. -/
structure HydroRow where
  catchment_id : String
  hand_version_id : String
  payload : String
deriving Repr, DecidableEq

/-- A row of the `HAND_REM_Rasters` table. -/
structure RemRow where
  rem_raster_id : String
  catchment_id : String
  hand_version_id : String
  raster_path : String
deriving Repr, DecidableEq

/-- A row of the `HAND_Catchment_Rasters` table (note: no catchment or hand
version column; the link to the catchment is indirect via `rem_raster_id`). -/
structure CRasterRow where
  catchment_raster_id : String
  rem_raster_id : String
  raster_path : String
deriving Repr, DecidableEq

/-- A row of the `NWM_Features` table, keyed by
`(nwm_feature_id, nwm_version_id)`. -/
structure NwmRow where
  nwm_feature_id : String
  nwm_version_id : String
  payload : String
deriving Repr, DecidableEq

/-- The visible (committed) database state. -/
structure DB where
  catchments : List CatchRow
  hydrotables : List HydroRow
  remRasters : List RemRow
  catchRasters : List CRasterRow
  nwmFeatures : List NwmRow
deriving Repr, DecidableEq

/-- The empty database. -/
def DB.empty : DB := ⟨[], [], [], [], []⟩

/-- Errors raised by external calls or by the loader itself.  `nameError`
models CPython's `UnboundLocalError`. -/
inductive LoadErr where
  | ioError
  | parseError
  | dbError
  | nameError
deriving Repr, DecidableEq

/-- The loader's environment: its version configuration and the fallible
external collaborators (storage listing, file parsers, and the database's
acceptance of each INSERT — `transaction.execute` may raise, e.g. on a
constraint violation; an oracle returning `false` models that raise). -/
structure Env where
  hand_version_id : String
  nwm_version_id : String
  /-- Result of `_get_catchment_dirs(hand_dir)` (embedded separately as
  `s3CatchmentDirs` / `localCatchmentDirs`). -/
  catchmentDirs : List String
  /-- Storage listing used by `_get_files` (`os.listdir` /
  `list_s3_objects`); `.error` models a raised I/O error. -/
  listDir : String → Except Unit (List String)
  /-- Library `gpd.read_file` on a geometry file: raises, or yields the rows of a
  GeoDataFrame. -/
  readGpkg : String → Except Unit (List Geom)
  /-- Source `_read_csv`: raises, or yields the rows of the CSV. -/
  readCsv : String → Except Unit (List String)
  catchInsertOk : CatchRow → Bool
  hydroInsertOk : HydroRow → Bool
  remInsertOk : RemRow → Bool
  cRasterInsertOk : CRasterRow → Bool

deriving instance DecidableEq for Except

/-! ## Pipeline operations (src/load.py 121-457) -/

/-- Source `_get_files` (line 121): list the unit's directory and keep names that
end with `extension` and contain `pattern`, joined onto the directory. -/
def _get_files (env : Env) (directory extension pat : String) :
    Except LoadErr (List String) :=
  match env.listDir directory with
  | .error _ => .error .ioError
  | .ok names =>
      .ok ((names.filter (matchesFilter extension pat)).map
        fun f => directory ++ "/" ++ f)

/-- The collaborator method `gdf.union_all()` (only ever applied to a
non-empty GeoDataFrame). -/
def unionAll : List Geom → Geom
  | [] => Geom.leaf ""
  | g :: gs => gs.foldl Geom.union g

/-- Source `_merge_geometries` (line 145): seed the accumulator with the
file's `union_all`, or union it into the existing geometry. -/
def _merge_geometries (existing_geom : Option Geom) (new_gdf : List Geom) :
    Geom :=
  match existing_geom with
  | none => unionAll new_gdf
  | some g => Geom.union g (unionAll new_gdf)

/-- One iteration of the geometry loop in `load_catchment_geometry`
(lines 262-270): a read error is logged and skipped, an empty GeoDataFrame is
skipped, otherwise the file is merged in. -/
def mergeStep (env : Env) (acc : Option Geom) (gpkg : String) : Option Geom :=
  match env.readGpkg gpkg with
  | .error _ => acc
  | .ok gdf => if gdf.isEmpty then acc else some (_merge_geometries acc gdf)

/-- Source `load_catchment_geometry` (line 251): returns `none` (no row written)
when no geometry file is found or every file is empty/unreadable; otherwise
inserts the `Catchments` row keyed by the deterministic UUID of the merged
geometry's WKT and returns the id. -/
def load_catchment_geometry (env : Env) (catchment_dir : String) (db : DB) :
    Except LoadErr (Option String × DB) :=
  match _get_files env catchment_dir ".gpkg" "gw_catchments" with
  | .error e => .error e
  | .ok gpkg_files =>
    if gpkg_files.isEmpty then .ok (none, db)
    else
      match gpkg_files.foldl (mergeStep env) none with
      | none => .ok (none, db)
      | some merged_geom =>
          let catchment_id := _generate_uuid merged_geom.wkt
          let row : CatchRow :=
            ⟨catchment_id, env.hand_version_id, merged_geom.wkt⟩
          if env.catchInsertOk row then
            .ok (some catchment_id,
              { db with catchments := db.catchments ++ [row] })
          else
            .error .dbError

/-- Source `_insert_hydro_records` (line 308): insert one `Hydrotables` row per CSV
row; a raising INSERT propagates. -/
def _insert_hydro_records (env : Env) (rows : List String)
    (catchment_id : String) (db : DB) : Except LoadErr DB :=
  rows.foldlM
    (fun db r =>
      let hrow : HydroRow := ⟨catchment_id, env.hand_version_id, r⟩
      if env.hydroInsertOk hrow then
        .ok { db with hydrotables := db.hydrotables ++ [hrow] }
      else
        .error .dbError)
    db

/-- Source `load_hydrotables` (line 291): no matching CSV file is not an error;
a failing read or insert is re-raised (`except ...: raise`). -/
def load_hydrotables (env : Env) (catchment_dir catchment_id : String)
    (db : DB) : Except LoadErr DB :=
  match _get_files env catchment_dir ".csv" "hydroTable_" with
  | .error e => .error e
  | .ok csv_files =>
    if csv_files.isEmpty then .ok db
    else
      csv_files.foldlM
        (fun db csv_path =>
          match env.readCsv csv_path with
          | .error _ => .error .parseError
          | .ok df => _insert_hydro_records env df catchment_id db)
        db

/-- One step of `_insert_rem_rasters` (line 410): append the file's
deterministic UUID to the id list and insert the `HAND_REM_Rasters` row. -/
def remStep (env : Env) (catchment_id : String)
    (st : List String × DB) (file_path : String) :
    Except LoadErr (List String × DB) :=
  let file_id := _generate_uuid file_path
  let row : RemRow := ⟨file_id, catchment_id, env.hand_version_id, file_path⟩
  if env.remInsertOk row then
    .ok (st.1 ++ [file_id], { st.2 with remRasters := st.2.remRasters ++ [row] })
  else
    .error .dbError

/-- Source `_insert_rem_rasters` (line 410): insert the REM raster references and
return their ids in insertion order. -/
def _insert_rem_rasters (env : Env) (files : List String)
    (catchment_id : String) (db : DB) : Except LoadErr (List String × DB) :=
  files.foldlM (remStep env catchment_id) ([], db)

/-- One step of `_insert_catchment_rasters` (line 434): insert a
`HAND_Catchment_Rasters` row linked to `rem_raster_ids[0]`; when the id list
is empty the `if rem_raster_ids:` guard skips the insert. -/
def cRasterStep (env : Env) (rem_raster_ids : List String) (db : DB)
    (file_path : String) : Except LoadErr DB :=
  let catchment_raster_id := _generate_uuid file_path
  match rem_raster_ids with
  | [] => .ok db
  | rem_id :: _ =>
      let row : CRasterRow := ⟨catchment_raster_id, rem_id, file_path⟩
      if env.cRasterInsertOk row then
        .ok { db with catchRasters := db.catchRasters ++ [row] }
      else
        .error .dbError

/-- Source `_insert_catchment_rasters` (line 434). -/
def _insert_catchment_rasters (env : Env) (files rem_raster_ids : List String)
    (db : DB) : Except LoadErr DB :=
  files.foldlM (cRasterStep env rem_raster_ids) db

/-- Source `load_rasters` (line 380): return immediately when no REM raster file
matches; otherwise insert the REM references, then the catchment raster
references (`except ...: raise` is the identity on the propagated error). -/
def load_rasters (env : Env) (catchment_dir catchment_id : String) (db : DB) :
    Except LoadErr DB :=
  match _get_files env catchment_dir ".tif" "rem_zeroed_" with
  | .error e => .error e
  | .ok rem_files =>
    if rem_files.isEmpty then .ok db
    else
      match _get_files env catchment_dir ".tif" "gw_catchments" with
      | .error e => .error e
      | .ok catchment_files =>
        match _insert_rem_rasters env rem_files catchment_id db with
        | .error e => .error e
        | .ok (rem_raster_ids, db1) =>
          if catchment_files.isEmpty then .ok db1
          else _insert_catchment_rasters env catchment_files rem_raster_ids db1

/-- Source `_cleanup_catchment` (line 213): in its own transaction, delete the rows
matching this catchment id and the loader's hand version from `Hydrotables`,
`HAND_REM_Rasters`, then `Catchments`; `None` returns immediately. -/
def _cleanup_catchment (env : Env) (catchment_id : Option String) (db : DB) :
    DB :=
  match catchment_id with
  | none => db
  | some cid =>
      { db with
        hydrotables := db.hydrotables.filter fun r =>
          !(r.catchment_id == cid && r.hand_version_id == env.hand_version_id)
        remRasters := db.remRasters.filter fun r =>
          !(r.catchment_id == cid && r.hand_version_id == env.hand_version_id)
        catchments := db.catchments.filter fun r =>
          !(r.catchment_id == cid && r.hand_version_id == env.hand_version_id) }

/-- The CPython local variable `catchment_id` of `load_hand_data`: unbound
until its first assignment, then it keeps its last assigned value across loop
iterations. -/
inductive PyVar where
  | unbound
  | val : Option String → PyVar
deriving Repr, DecidableEq

/-- The body of `load_hand_data`'s `with engine.begin():` block for one unit.
Returns the assignment made to `catchment_id` during the attempt (`none` when
the exception fired before the assignment completed) together with the
transaction's outcome. -/
def runUnit (env : Env) (catchment_dir : String) (db : DB) :
    Option (Option String) × Except LoadErr DB :=
  match load_catchment_geometry env catchment_dir db with
  | .error e => (none, .error e)
  | .ok (none, db1) => (some none, .ok db1)
  | .ok (some cid, db1) =>
      (some (some cid),
        match load_hydrotables env catchment_dir cid db1 with
        | .error e => .error e
        | .ok db2 => load_rasters env catchment_dir cid db2)

/-- One iteration of `load_hand_data`'s loop (lines 190-211): on success the
transaction commits; on failure the transaction rolls back (the pre-attempt
`db` is kept) and the `except` handler runs `_cleanup_catchment(catchment_id)`
— raising `UnboundLocalError` when `catchment_id` was never assigned. -/
def processUnit (env : Env) (st : DB × PyVar) (catchment_dir : String) :
    Except LoadErr (DB × PyVar) :=
  let (db, var) := st
  let (asgn, res) := runUnit env catchment_dir db
  let var' := match asgn with
    | some v => PyVar.val v
    | none => var
  match res with
  | .ok db' => .ok (db', var')
  | .error _ =>
      match var' with
      | .unbound => .error .nameError
      | .val v => .ok (_cleanup_catchment env v db, var')

/-- Source `load_hand_data` (line 184): process the discovered units in order;
the only exception that can escape is the handler's own `UnboundLocalError`. -/
def load_hand_data (env : Env) (db : DB) : Except LoadErr DB :=
  (env.catchmentDirs.foldlM (processUnit env) (db, PyVar.unbound)).map
    fun st => st.1

/-- A record of the `nwm_streams` layer consumed by `load_nwm_features`. -/
structure NwmFeature where
  id : String
  payload : String
deriving Repr, DecidableEq

/-- Source `load_nwm_features` (line 538): insert each feature with
`ON CONFLICT (nwm_feature_id, nwm_version_id) DO NOTHING`; a suppressed
insert leaves `rowcount == 0` and increments the dropped-duplicates count,
which is reported at the end. -/
def load_nwm_features (env : Env) (features : List NwmFeature) (db : DB) :
    DB × Nat :=
  features.foldl
    (fun st f =>
      let (db, dropped_count) := st
      if db.nwmFeatures.any (fun r =>
          r.nwm_feature_id == f.id && r.nwm_version_id == env.nwm_version_id) then
        (db, dropped_count + 1)
      else
        ({ db with nwmFeatures :=
            db.nwmFeatures ++ [⟨f.id, env.nwm_version_id, f.payload⟩] },
         dropped_count))
    (db, 0)

/-- Rows of `Catchments` visible for a catchment id under a hand version. -/
def catchRowsFor (db : DB) (cid hv : String) : List CatchRow :=
  db.catchments.filter fun r => r.catchment_id == cid && r.hand_version_id == hv

/-- Rows of `Hydrotables` visible for a catchment id under a hand version. -/
def hydroRowsFor (db : DB) (cid hv : String) : List HydroRow :=
  db.hydrotables.filter fun r => r.catchment_id == cid && r.hand_version_id == hv

/-- Rows of `HAND_REM_Rasters` visible for a catchment id under a hand
version. -/
def remRowsFor (db : DB) (cid hv : String) : List RemRow :=
  db.remRasters.filter fun r => r.catchment_id == cid && r.hand_version_id == hv

/-- Count of `NWM_Features` rows with the given key. -/
def nwmKeyCount (db : DB) (fid ver : String) : Nat :=
  (db.nwmFeatures.filter fun r =>
    r.nwm_feature_id == fid && r.nwm_version_id == ver).length

/-! ## Helper lemmas -/

/-- Rows removed by a filter on the negated predicate cannot survive a filter
on the predicate itself. -/
theorem filter_of_filter_not {α : Type} (p : α → Bool) (l : List α) :
    (l.filter fun a => !(p a)).filter p = [] := by
  induction l with
  | nil => rfl
  | cons a t ih => cases hpa : p a <;> simp [List.filter_cons, hpa, ih]

/-- After `_cleanup_catchment`, no `Catchments` row for this catchment id and
hand version is visible. -/
theorem cleanup_catchRowsFor (env : Env) (cid : String) (db : DB) :
    catchRowsFor (_cleanup_catchment env (some cid) db) cid
      env.hand_version_id = [] := by
  simp [catchRowsFor, _cleanup_catchment, filter_of_filter_not]

/-- After `_cleanup_catchment`, no `Hydrotables` row for this catchment id and
hand version is visible. -/
theorem cleanup_hydroRowsFor (env : Env) (cid : String) (db : DB) :
    hydroRowsFor (_cleanup_catchment env (some cid) db) cid
      env.hand_version_id = [] := by
  simp [hydroRowsFor, _cleanup_catchment, filter_of_filter_not]

/-- After `_cleanup_catchment`, no `HAND_REM_Rasters` row for this catchment
id and hand version is visible. -/
theorem cleanup_remRowsFor (env : Env) (cid : String) (db : DB) :
    remRowsFor (_cleanup_catchment env (some cid) db) cid
      env.hand_version_id = [] := by
  simp [remRowsFor, _cleanup_catchment, filter_of_filter_not]

/-- Lemma: `_cleanup_catchment` does not touch the `HAND_Catchment_Rasters` table
(the source deletes only from `Hydrotables`, `HAND_REM_Rasters` and
`Catchments`). -/
theorem cleanup_catchRasters (env : Env) (v : Option String) (db : DB) :
    (_cleanup_catchment env v db).catchRasters = db.catchRasters := by
  cases v <;> rfl

/-- The geometry-merging loop stays empty when every discovered file is
unreadable or empty. -/
theorem foldl_mergeStep_none (env : Env) (fs : List String)
    (h : ∀ f ∈ fs, env.readGpkg f = .error () ∨ env.readGpkg f = .ok []) :
    fs.foldl (mergeStep env) none = none := by
  induction fs with
  | nil => rfl
  | cons f t ih =>
      have hstep : mergeStep env none f = none := by
        rcases h f (by simp) with hf | hf <;> simp [mergeStep, hf]
      rw [List.foldl_cons, hstep]
      exact ih fun g hg => h g (by simp [hg])

/-- Binding a raised error short-circuits. -/
theorem error_bind {α β : Type} (e : LoadErr) (f : α → Except LoadErr β) :
    ((Except.error e : Except LoadErr α) >>= f) = .error e := rfl

/-- Binding an ok value applies the continuation. -/
theorem ok_bind {α β : Type} (a : α) (f : α → Except LoadErr β) :
    ((Except.ok a : Except LoadErr α) >>= f) = f a := rfl

/-- The REM raster row inserted for one file. -/
def remRowOf (env : Env) (catchment_id file_path : String) : RemRow :=
  ⟨_generate_uuid file_path, catchment_id, env.hand_version_id, file_path⟩

/-- The catchment raster row inserted for one file, linked to `rem_id`. -/
def cRasterRowOf (rem_id file_path : String) : CRasterRow :=
  ⟨_generate_uuid file_path, rem_id, file_path⟩

/-- When the database accepts every REM insert, `_insert_rem_rasters`'s fold
appends exactly one row and one id per file, in file order. -/
theorem foldlM_remStep_ok (env : Env) (cid : String) :
    ∀ (files : List String) (acc : List String) (db : DB),
      (∀ p ∈ files, env.remInsertOk (remRowOf env cid p) = true) →
      files.foldlM (remStep env cid) (acc, db) =
        .ok (acc ++ files.map (fun p => _generate_uuid p),
             { db with remRasters :=
                 db.remRasters ++ files.map (remRowOf env cid) }) := by
  intro files
  induction files with
  | nil => intro acc db _; simp [List.foldlM]; rfl
  | cons p t ih =>
      intro acc db h
      have hp := h p (by simp)
      have hstep : remStep env cid (acc, db) p =
          .ok (acc ++ [_generate_uuid p],
               { db with remRasters := db.remRasters ++ [remRowOf env cid p] }) := by
        simp only [remStep, remRowOf] at hp ⊢
        simp [hp]
      rw [List.foldlM_cons, hstep, ok_bind,
        ih _ _ fun q hq => h q (by simp [hq])]
      simp

/-- When the database accepts every catchment-raster insert and at least one
REM id exists, `_insert_catchment_rasters`'s fold appends one row per file,
each linked to the first REM id. -/
theorem foldlM_cRasterStep_ok (env : Env) (rid : String) (rest : List String) :
    ∀ (files : List String) (db : DB),
      (∀ p ∈ files, env.cRasterInsertOk (cRasterRowOf rid p) = true) →
      files.foldlM (cRasterStep env (rid :: rest)) db =
        .ok { db with catchRasters :=
                db.catchRasters ++ files.map (cRasterRowOf rid) } := by
  intro files
  induction files with
  | nil => intro db _; simp [List.foldlM]; rfl
  | cons p t ih =>
      intro db h
      have hp := h p (by simp)
      have hstep : cRasterStep env (rid :: rest) db p =
          .ok { db with catchRasters := db.catchRasters ++ [cRasterRowOf rid p] } := by
        simp only [cRasterStep, cRasterRowOf] at hp ⊢
        simp [hp]
      rw [List.foldlM_cons, hstep, ok_bind,
        ih _ fun q hq => h q (by simp [hq])]
      simp

/-- The REM insert fold writes only to `HAND_REM_Rasters`. -/
theorem foldlM_remStep_frame (env : Env) (cid : String) :
    ∀ (files : List String) (acc ids : List String) (db db' : DB),
      files.foldlM (remStep env cid) (acc, db) = .ok (ids, db') →
      db'.catchments = db.catchments ∧ db'.hydrotables = db.hydrotables ∧
        db'.catchRasters = db.catchRasters := by
  intro files
  induction files with
  | nil =>
      intro acc ids db db' h
      simp only [List.foldlM, pure, Except.pure, Except.ok.injEq,
        Prod.mk.injEq] at h
      simp [← h.2]
  | cons p t ih =>
      intro acc ids db db' h
      rw [List.foldlM_cons] at h
      cases hok : env.remInsertOk ⟨_generate_uuid p, cid, env.hand_version_id, p⟩ with
      | false => rw [remStep, hok] at h; simp [error_bind] at h
      | true =>
          rw [remStep, hok] at h
          simp only [if_true, ok_bind] at h
          simpa using ih _ _ _ _ h

/-- The catchment-raster insert fold writes only to `HAND_Catchment_Rasters`. -/
theorem foldlM_cRasterStep_frame (env : Env) (ids : List String) :
    ∀ (files : List String) (db db' : DB),
      files.foldlM (cRasterStep env ids) db = .ok db' →
      db'.catchments = db.catchments ∧ db'.hydrotables = db.hydrotables ∧
        db'.remRasters = db.remRasters := by
  intro files
  induction files with
  | nil =>
      intro db db' h
      simp only [List.foldlM, pure, Except.pure, Except.ok.injEq] at h
      simp [← h]
  | cons p t ih =>
      intro db db' h
      rw [List.foldlM_cons] at h
      cases ids with
      | nil =>
          rw [cRasterStep] at h
          simp only [ok_bind] at h
          exact ih _ _ h
      | cons rid rest =>
          cases hok : env.cRasterInsertOk ⟨_generate_uuid p, rid, p⟩ with
          | false => rw [cRasterStep] at h; rw [hok] at h; simp [error_bind] at h
          | true =>
              rw [cRasterStep] at h
              rw [hok] at h
              simp only [if_true, ok_bind] at h
              simpa using ih _ _ h

/-- Lemma: `load_rasters` writes only to the two raster-reference tables. -/
theorem load_rasters_frame (env : Env) (dir cid : String) (db db' : DB)
    (h : load_rasters env dir cid db = .ok db') :
    db'.catchments = db.catchments ∧ db'.hydrotables = db.hydrotables := by
  unfold load_rasters at h
  cases hl : _get_files env dir ".tif" "rem_zeroed_" with
  | error e => rw [hl] at h; cases h
  | ok rem_files =>
      rw [hl] at h
      by_cases hemp : rem_files.isEmpty
      · simp [hemp] at h
        simp [h.symm]
      · simp only [hemp, if_false] at h
        cases hc : _get_files env dir ".tif" "gw_catchments" with
        | error e => rw [hc] at h; cases h
        | ok catchment_files =>
            rw [hc] at h
            cases hins : _insert_rem_rasters env rem_files cid db with
            | error e => rw [hins] at h; cases h
            | ok st =>
                rw [hins] at h
                obtain ⟨ids, db1⟩ := st
                have hf1 := foldlM_remStep_frame env cid rem_files [] ids db db1 hins
                by_cases hce : catchment_files.isEmpty
                · simp [hce] at h
                  rw [← h]
                  exact ⟨hf1.1, hf1.2.1⟩
                · simp only [hce, if_false] at h
                  have hf2 := foldlM_cRasterStep_frame env ids catchment_files db1 db' h
                  exact ⟨hf2.1.trans hf1.1, hf2.2.1.trans hf1.2.1⟩

/-- Characterization of a successful geometry load that returned an id: the
id is the deterministic UUID of the merged WKT and exactly one `Catchments`
row was appended. -/
theorem load_catchment_geometry_ok_some (env : Env) (dir : String)
    (db db1 : DB) (cid : String)
    (h : load_catchment_geometry env dir db = .ok (some cid, db1)) :
    ∃ w : String, cid = _generate_uuid w ∧
      db1 = { db with catchments :=
        db.catchments ++ [⟨_generate_uuid w, env.hand_version_id, w⟩] } := by
  unfold load_catchment_geometry at h
  cases hl : _get_files env dir ".gpkg" "gw_catchments" with
  | error e => rw [hl] at h; cases h
  | ok gpkg_files =>
      rw [hl] at h
      by_cases hemp : gpkg_files.isEmpty
      · simp [hemp] at h
      · simp only [hemp, if_false] at h
        cases hm : gpkg_files.foldl (mergeStep env) none with
        | none => rw [hm] at h; simp at h
        | some merged =>
            rw [hm] at h
            simp only at h
            cases hok : env.catchInsertOk
                ⟨_generate_uuid merged.wkt, env.hand_version_id, merged.wkt⟩ with
            | false => simp [hok] at h
            | true =>
                simp only [hok, if_true] at h
                simp at h
                exact ⟨merged.wkt, h.1.symm, h.2.symm⟩

/-- Lemma: `runUnit` when the geometry step returned an id: the attempt's outcome is
decided by the hydrotable and raster steps. -/
theorem runUnit_ok_some (env : Env) (dir : String) (db db1 : DB) (cid : String)
    (hgeo : load_catchment_geometry env dir db = .ok (some cid, db1)) :
    runUnit env dir db =
      (some (some cid),
        match load_hydrotables env dir cid db1 with
        | .error e => .error e
        | .ok db2 => load_rasters env dir cid db2) := by
  unfold runUnit; rw [hgeo]

/-- Lemma: `runUnit` when the geometry step returned `None`: the unit is skipped with
no writes and `catchment_id` assigned `None`. -/
theorem runUnit_ok_none (env : Env) (dir : String) (db db1 : DB)
    (hgeo : load_catchment_geometry env dir db = .ok (none, db1)) :
    runUnit env dir db = (some none, .ok db1) := by
  unfold runUnit; rw [hgeo]

/-- Lemma: `runUnit` when the geometry step itself raised: `catchment_id` is never
assigned during the attempt. -/
theorem runUnit_error (env : Env) (dir : String) (db : DB) (e : LoadErr)
    (hgeo : load_catchment_geometry env dir db = .error e) :
    runUnit env dir db = (none, .error e) := by
  unfold runUnit; rw [hgeo]

/-! ## Concrete environments used by witnesses and counterexamples -/

/-- A unit with one readable geometry file and one hydrotable CSV whose parse
raises. -/
def envGeomOnly : Env where
  hand_version_id := "v1"
  nwm_version_id := "3.0"
  catchmentDirs := ["u"]
  listDir := fun _ => .ok ["b_gw_catchments.gpkg", "hydroTable_1.csv"]
  readGpkg := fun _ => .ok [Geom.leaf "P"]
  readCsv := fun _ => .error ()
  catchInsertOk := fun _ => true
  hydroInsertOk := fun _ => true
  remInsertOk := fun _ => true
  cRasterInsertOk := fun _ => true

/-- The database state after `envGeomOnly`'s geometry step commits. -/
def dbP : DB := { DB.empty with catchments := [⟨_generate_uuid "P", "v1", "P"⟩] }

/-- A unit whose two geometry files are unreadable resp. empty. -/
def envEmptyGeom : Env where
  hand_version_id := "v1"
  nwm_version_id := "3.0"
  catchmentDirs := ["u"]
  listDir := fun _ => .ok ["e_gw_catchments.gpkg", "f_gw_catchments.gpkg"]
  readGpkg := fun p => if p == "u/e_gw_catchments.gpkg" then .error () else .ok []
  readCsv := fun _ => .ok []
  catchInsertOk := fun _ => true
  hydroInsertOk := fun _ => true
  remInsertOk := fun _ => true
  cRasterInsertOk := fun _ => true

/-- A unit with a catchment raster file but no REM raster file. -/
def envCatchTifOnly : Env where
  hand_version_id := "v1"
  nwm_version_id := "3.0"
  catchmentDirs := ["u"]
  listDir := fun _ => .ok ["c_gw_catchments.tif"]
  readGpkg := fun _ => .ok [Geom.leaf "S"]
  readCsv := fun _ => .ok []
  catchInsertOk := fun _ => true
  hydroInsertOk := fun _ => true
  remInsertOk := fun _ => true
  cRasterInsertOk := fun _ => true

/-! ## Claims -/

/-- C1: if the hydrotable or raster step of a catchment's load raises after
the geometry step inserted the catchment row, the unit's transaction aborts
and rolls back (the pre-attempt database is kept) and the compensating
cleanup runs, so afterwards no `Catchments`, `Hydrotables` or
`HAND_REM_Rasters` row for that catchment id under the loader's hand version
is visible, and the `HAND_Catchment_Rasters` table is exactly as before the
attempt. -/
theorem C1_abort_leaves_no_rows (env : Env) (dir : String) (db : DB)
    (var : PyVar) (cid : String) (db1 : DB)
    (hgeo : load_catchment_geometry env dir db = .ok (some cid, db1))
    (hfail : (∃ e, load_hydrotables env dir cid db1 = .error e) ∨
      (∃ db2 e, load_hydrotables env dir cid db1 = .ok db2 ∧
        load_rasters env dir cid db2 = .error e)) :
    processUnit env (db, var) dir =
      .ok (_cleanup_catchment env (some cid) db, PyVar.val (some cid)) ∧
    catchRowsFor (_cleanup_catchment env (some cid) db) cid
      env.hand_version_id = [] ∧
    hydroRowsFor (_cleanup_catchment env (some cid) db) cid
      env.hand_version_id = [] ∧
    remRowsFor (_cleanup_catchment env (some cid) db) cid
      env.hand_version_id = [] ∧
    (_cleanup_catchment env (some cid) db).catchRasters = db.catchRasters := by
  have hrun : ∃ e, runUnit env dir db = (some (some cid), .error e) := by
    rcases hfail with ⟨e, hh⟩ | ⟨db2, e, hh, hr⟩
    · exact ⟨e, by rw [runUnit_ok_some env dir db db1 cid hgeo, hh]⟩
    · refine ⟨e, ?_⟩
      rw [runUnit_ok_some env dir db db1 cid hgeo, hh]
      show (some (some cid), load_rasters env dir cid db2) =
        (some (some cid), Except.error e)
      rw [hr]
  obtain ⟨e, hrun⟩ := hrun
  refine ⟨?_, cleanup_catchRowsFor env cid db, cleanup_hydroRowsFor env cid db,
    cleanup_remRowsFor env cid db, cleanup_catchRasters env (some cid) db⟩
  simp [processUnit, hrun]

/-- C1 witness: a unit whose only hydrotable CSV fails to parse; the attempt
leaves the empty database empty and `catchment_id` bound. -/
theorem C1_witness :
    processUnit envGeomOnly (DB.empty, PyVar.unbound) "u" =
      .ok (DB.empty, PyVar.val (some (_generate_uuid "P"))) := by
  have h := (C1_abort_leaves_no_rows envGeomOnly "u" DB.empty PyVar.unbound
    (_generate_uuid "P") dbP (by decide)
    (Or.inl ⟨LoadErr.parseError, by decide⟩)).1
  rw [h]
  rfl

/-- C5: the identity generator is the name-based version-5 UUID over the
fixed DNS namespace; `generate_deterministic_uuid` and `_generate_uuid` are
the same pure function of the input string alone, so two calls on the same
string — in one run or across runs — produce the same identifier. -/
theorem C5_identity_deterministic :
    ∀ s : String,
      generate_deterministic_uuid s = uuid5 NAMESPACE_DNS s ∧
      _generate_uuid s = generate_deterministic_uuid s :=
  fun _ => ⟨rfl, rfl⟩

/-- C6: a unit whose matching geometry files are all unreadable or empty (or
absent) yields `None` from `load_catchment_geometry`, writes nothing to any
table, and the batch loop moves on without error, with `catchment_id`
assigned `None`. -/
theorem C6_no_geometry_skips (env : Env) (dir : String) (db : DB)
    (var : PyVar) (fs : List String)
    (hfiles : _get_files env dir ".gpkg" "gw_catchments" = .ok fs)
    (hbad : ∀ f ∈ fs, env.readGpkg f = .error () ∨ env.readGpkg f = .ok []) :
    load_catchment_geometry env dir db = .ok (none, db) ∧
    processUnit env (db, var) dir = .ok (db, PyVar.val none) := by
  have hgeo : load_catchment_geometry env dir db = .ok (none, db) := by
    unfold load_catchment_geometry
    rw [hfiles]
    by_cases hemp : fs.isEmpty
    · simp [hemp]
    · simp [hemp, foldl_mergeStep_none env fs hbad]
  exact ⟨hgeo, by simp [processUnit, runUnit_ok_none env dir db db hgeo]⟩

/-- C6 witness: one unreadable and one empty geometry file. -/
theorem C6_witness :
    load_catchment_geometry envEmptyGeom "u" DB.empty = .ok (none, DB.empty) ∧
    processUnit envEmptyGeom (DB.empty, PyVar.unbound) "u" =
      .ok (DB.empty, PyVar.val none) :=
  C6_no_geometry_skips envEmptyGeom "u" DB.empty PyVar.unbound
    ["u/e_gw_catchments.gpkg", "u/f_gw_catchments.gpkg"] (by decide) (by decide)

/-- C9: when no REM raster file matches, `load_rasters` returns immediately
with the database unchanged — in particular no `HAND_Catchment_Rasters` row
is written even when catchment raster files are present. -/
theorem C9_no_rem_no_catchment_rasters (env : Env) (dir cid : String)
    (db : DB)
    (hrem : _get_files env dir ".tif" "rem_zeroed_" = .ok []) :
    load_rasters env dir cid db = .ok db := by
  unfold load_rasters
  rw [hrem]
  rfl

/-- C9 witness: a unit with a `gw_catchments` raster file but no
`rem_zeroed_` file. -/
theorem C9_witness :
    load_rasters envCatchTifOnly "u" "c0" DB.empty = .ok DB.empty :=
  C9_no_rem_no_catchment_rasters envCatchTifOnly "u" "c0" DB.empty (by decide)

/-- A unit with one geometry file and one REM raster file but no hydrotable
CSV. -/
def envNoCsv : Env where
  hand_version_id := "v1"
  nwm_version_id := "3.0"
  catchmentDirs := ["u"]
  listDir := fun _ => .ok ["g_gw_catchments.gpkg", "r_rem_zeroed_.tif"]
  readGpkg := fun _ => .ok [Geom.leaf "W"]
  readCsv := fun _ => .ok []
  catchInsertOk := fun _ => true
  hydroInsertOk := fun _ => true
  remInsertOk := fun _ => true
  cRasterInsertOk := fun _ => true

/-- C10: a unit with a valid merged geometry whose directory holds no
`hydroTable_` CSV commits normally: `load_hydrotables` returns without
raising, the raster step still runs, and in a database that had no rows for
this catchment the committed state holds exactly one `Catchments` row and
zero `Hydrotables` rows. -/
theorem C10_no_hydrotable_files_commit (env : Env) (dir : String) (db : DB)
    (var : PyVar) (cid : String) (db1 db2 : DB)
    (hgeo : load_catchment_geometry env dir db = .ok (some cid, db1))
    (hcsv : _get_files env dir ".csv" "hydroTable_" = .ok [])
    (hras : load_rasters env dir cid db1 = .ok db2)
    (hc0 : catchRowsFor db cid env.hand_version_id = [])
    (hh0 : hydroRowsFor db cid env.hand_version_id = []) :
    load_hydrotables env dir cid db1 = .ok db1 ∧
    processUnit env (db, var) dir = .ok (db2, PyVar.val (some cid)) ∧
    (catchRowsFor db2 cid env.hand_version_id).length = 1 ∧
    hydroRowsFor db2 cid env.hand_version_id = [] := by
  have hhydro : load_hydrotables env dir cid db1 = .ok db1 := by
    unfold load_hydrotables
    rw [hcsv]
    rfl
  have hrun : runUnit env dir db = (some (some cid), .ok db2) := by
    rw [runUnit_ok_some env dir db db1 cid hgeo, hhydro]
    show (some (some cid), load_rasters env dir cid db1) =
      (some (some cid), Except.ok db2)
    rw [hras]
  obtain ⟨w, hw, hdb1⟩ := load_catchment_geometry_ok_some env dir db db1 cid hgeo
  have hframe := load_rasters_frame env dir cid db1 db2 hras
  have hcount : catchRowsFor db2 cid env.hand_version_id =
      catchRowsFor db cid env.hand_version_id ++
        [⟨_generate_uuid w, env.hand_version_id, w⟩] := by
    simp only [catchRowsFor, hframe.1, hdb1]
    rw [List.filter_append]
    congr 1
    simp [hw]
  refine ⟨hhydro, by simp [processUnit, hrun], ?_, ?_⟩
  · rw [hcount, hc0]
    rfl
  · simp only [hydroRowsFor, hframe.2, hdb1]
    exact hh0

/-- C10 witness: a unit with a geometry file and a REM raster but no CSV. -/
theorem C10_witness :
    processUnit envNoCsv (DB.empty, PyVar.unbound) "u" =
      .ok ({ DB.empty with
              catchments := [⟨_generate_uuid "W", "v1", "W"⟩],
              remRasters := [⟨_generate_uuid "u/r_rem_zeroed_.tif",
                _generate_uuid "W", "v1", "u/r_rem_zeroed_.tif"⟩] },
           PyVar.val (some (_generate_uuid "W"))) := by
  have h := (C10_no_hydrotable_files_commit envNoCsv "u" DB.empty PyVar.unbound
    (_generate_uuid "W")
    { DB.empty with catchments := [⟨_generate_uuid "W", "v1", "W"⟩] }
    { DB.empty with
        catchments := [⟨_generate_uuid "W", "v1", "W"⟩],
        remRasters := [⟨_generate_uuid "u/r_rem_zeroed_.tif",
          _generate_uuid "W", "v1", "u/r_rem_zeroed_.tif"⟩] }
    (by decide) (by decide) (by decide) (by decide) (by decide)).2.1
  exact h

/-- C8: inserting the same river-network feature twice under one NWM version
inserts exactly one `NWM_Features` row; the second attempt is suppressed by
the conflict clause rather than raising, and is counted in the reported
dropped-duplicates total. -/
theorem C8_duplicate_feature_suppressed (env : Env) (f : NwmFeature) (db : DB)
    (h : nwmKeyCount db f.id env.nwm_version_id = 0) :
    load_nwm_features env [f, f] db =
      ({ db with nwmFeatures :=
          db.nwmFeatures ++ [⟨f.id, env.nwm_version_id, f.payload⟩] }, 1) ∧
    nwmKeyCount
      { db with nwmFeatures :=
          db.nwmFeatures ++ [⟨f.id, env.nwm_version_id, f.payload⟩] }
      f.id env.nwm_version_id = 1 := by
  have hnil : db.nwmFeatures.filter (fun r =>
      r.nwm_feature_id == f.id && r.nwm_version_id == env.nwm_version_id) = [] :=
    List.length_eq_zero.mp h
  have hall := List.filter_eq_nil_iff.mp hnil
  have hany : db.nwmFeatures.any (fun r =>
      r.nwm_feature_id == f.id && r.nwm_version_id == env.nwm_version_id) =
      false := by
    cases hb : db.nwmFeatures.any (fun r =>
        r.nwm_feature_id == f.id && r.nwm_version_id == env.nwm_version_id) with
    | false => rfl
    | true =>
        obtain ⟨x, hx, hpx⟩ := List.any_eq_true.mp hb
        exact absurd hpx (hall x hx)
  constructor
  · simp only [load_nwm_features, List.foldl_cons, List.foldl_nil, hany,
      Bool.false_eq_true, if_false]
    simp only [List.any_append, hany, Bool.false_or, List.any_cons,
      List.any_nil, Bool.or_false, beq_self_eq_true, Bool.and_self, if_true]
  · simp [nwmKeyCount, List.filter_append, hnil]

/-- A sample river-network feature. -/
def nwmF : NwmFeature := ⟨"123", "streamdata"⟩

/-- C8 witness: loading the sample feature twice into the empty database. -/
theorem C8_witness :
    load_nwm_features envGeomOnly [nwmF, nwmF] DB.empty =
      ({ DB.empty with
          nwmFeatures := [⟨nwmF.id, envGeomOnly.nwm_version_id, nwmF.payload⟩] },
       1) ∧
    nwmKeyCount
      { DB.empty with
          nwmFeatures := [⟨nwmF.id, envGeomOnly.nwm_version_id, nwmF.payload⟩] }
      nwmF.id envGeomOnly.nwm_version_id = 1 := by
  have h := C8_duplicate_feature_suppressed envGeomOnly nwmF DB.empty (by decide)
  simpa using h

/-- A batch of two units in which the first unit's directory listing raises
and the second unit is perfectly loadable. -/
def envBatchAbort : Env where
  hand_version_id := "v1"
  nwm_version_id := "3.0"
  catchmentDirs := ["bad", "good"]
  listDir := fun d => if d == "bad" then .error () else .ok ["a_gw_catchments.gpkg"]
  readGpkg := fun _ => .ok [Geom.leaf "Q"]
  readCsv := fun _ => .ok []
  catchInsertOk := fun _ => true
  hydroInsertOk := fun _ => true
  remInsertOk := fun _ => true
  cRasterInsertOk := fun _ => true

/-- C2 (code bug): in `load_hand_data` the `except` handler calls
`self._cleanup_catchment(catchment_id)`, but `catchment_id` is a local
variable first assigned inside the `try:` body.  When the first processed
unit raises before that assignment completes (here: `os.listdir` fails for
the unit's directory), the handler itself raises `UnboundLocalError`, which
propagates out of `load_hand_data` and aborts the whole batch — the second,
perfectly loadable unit (second conjunct) is never attempted.  This
contradicts the loop's documented continue-on-error intent. -/
theorem C2_first_unit_failure_aborts_batch :
    load_hand_data envBatchAbort DB.empty = .error LoadErr.nameError ∧
    processUnit envBatchAbort (DB.empty, PyVar.unbound) "good" =
      .ok ({ DB.empty with catchments := [⟨_generate_uuid "Q", "v1", "Q"⟩] },
           PyVar.val (some (_generate_uuid "Q"))) := by
  constructor <;> decide

/-- A batch of two units in which the first loads completely and the second
unit's directory listing raises. -/
def envStaleCleanup : Env where
  hand_version_id := "v1"
  nwm_version_id := "3.0"
  catchmentDirs := ["u1", "u2"]
  listDir := fun d => if d == "u2" then .error () else .ok ["a_gw_catchments.gpkg"]
  readGpkg := fun _ => .ok [Geom.leaf "R"]
  readCsv := fun _ => .ok []
  catchInsertOk := fun _ => true
  hydroInsertOk := fun _ => true
  remInsertOk := fun _ => true
  cRasterInsertOk := fun _ => true

/-- C3 (code bug): when a later unit raises before `catchment_id` is
reassigned, the handler's `_cleanup_catchment(catchment_id)` receives the
stale id of the PREVIOUS, successfully committed unit and deletes that other
catchment's rows.  Here unit `u1` commits one `Catchments` row (second
conjunct), unit `u2` fails at its directory listing, and the batch finishes
"successfully" with an empty database: the cleanup pass was not scoped to the
failed catchment's own identity. -/
theorem C3_stale_cleanup_deletes_other_catchment :
    load_hand_data envStaleCleanup DB.empty = .ok DB.empty ∧
    processUnit envStaleCleanup (DB.empty, PyVar.unbound) "u1" =
      .ok ({ DB.empty with catchments := [⟨_generate_uuid "R", "v1", "R"⟩] },
           PyVar.val (some (_generate_uuid "R"))) := by
  constructor <;> decide

/-- C7 counterexample: a unit with a catchment raster file
(`u/c_gw_catchments.tif` — the matching-file list in the second conjunct) but
no REM raster file.  `load_rasters` returns with the database unchanged, so
zero `HAND_Catchment_Rasters` rows are inserted although the claim, as
stated, requires one row per matching file unconditionally. -/
theorem C7_counterexample :
    load_rasters envCatchTifOnly "u" "c0" DB.empty = .ok DB.empty ∧
    _get_files envCatchTifOnly "u" ".tif" "gw_catchments" =
      .ok ["u/c_gw_catchments.tif"] := by
  constructor <;> decide

/-- C7 (amended): provided at least one REM raster file matches,
`load_rasters` inserts one `HAND_REM_Rasters` row per REM file keyed by the
deterministic UUID of the file path, then one `HAND_Catchment_Rasters` row
per catchment raster file, each linked via `rem_raster_id` to the first REM
reference inserted for the unit. -/
theorem C7_raster_rows_linked_to_first_rem (env : Env) (dir cid : String)
    (db : DB) (r : String) (rs cs : List String)
    (hrem : _get_files env dir ".tif" "rem_zeroed_" = .ok (r :: rs))
    (hcat : _get_files env dir ".tif" "gw_catchments" = .ok cs)
    (hrok : ∀ p ∈ r :: rs, env.remInsertOk (remRowOf env cid p) = true)
    (hcok : ∀ p ∈ cs,
      env.cRasterInsertOk (cRasterRowOf (_generate_uuid r) p) = true) :
    load_rasters env dir cid db =
      .ok { db with
        remRasters := db.remRasters ++ (r :: rs).map (remRowOf env cid),
        catchRasters := db.catchRasters ++
          cs.map (cRasterRowOf (_generate_uuid r)) } := by
  have hins : _insert_rem_rasters env (r :: rs) cid db =
      .ok ([] ++ (r :: rs).map (fun p => _generate_uuid p),
           { db with remRasters :=
               db.remRasters ++ (r :: rs).map (remRowOf env cid) }) := by
    unfold _insert_rem_rasters
    exact foldlM_remStep_ok env cid (r :: rs) [] db hrok
  unfold load_rasters
  rw [hrem]
  simp only [List.isEmpty_cons, Bool.false_eq_true, if_false]
  rw [hcat, hins]
  cases cs with
  | nil => simp
  | cons c ct =>
      simp only [List.isEmpty_cons, Bool.false_eq_true, if_false,
        List.nil_append, List.map_cons]
      have h := foldlM_cRasterStep_ok env (_generate_uuid r)
        (rs.map fun p => _generate_uuid p) (c :: ct)
        { db with remRasters := db.remRasters ++ (r :: rs).map (remRowOf env cid) }
        hcok
      unfold _insert_catchment_rasters
      rw [List.map_cons] at h
      rw [h]
      simp

/-- A unit with one REM raster file and one catchment raster file. -/
def envFullRaster : Env where
  hand_version_id := "v1"
  nwm_version_id := "3.0"
  catchmentDirs := ["u"]
  listDir := fun _ => .ok ["a_rem_zeroed_.tif", "b_gw_catchments.tif"]
  readGpkg := fun _ => .ok [Geom.leaf "T"]
  readCsv := fun _ => .ok []
  catchInsertOk := fun _ => true
  hydroInsertOk := fun _ => true
  remInsertOk := fun _ => true
  cRasterInsertOk := fun _ => true

/-- C7 witness: one REM file and one catchment raster file; the catchment
raster row is linked to the REM file's deterministic UUID. -/
theorem C7_witness :
    load_rasters envFullRaster "u" "c0" DB.empty =
      .ok { DB.empty with
        remRasters := [⟨_generate_uuid "u/a_rem_zeroed_.tif", "c0", "v1",
          "u/a_rem_zeroed_.tif"⟩],
        catchRasters := [⟨_generate_uuid "u/b_gw_catchments.tif",
          _generate_uuid "u/a_rem_zeroed_.tif", "u/b_gw_catchments.tif"⟩] } := by
  have h := C7_raster_rows_linked_to_first_rem envFullRaster "u" "c0" DB.empty
    "u/a_rem_zeroed_.tif" [] ["u/b_gw_catchments.tif"]
    (by decide) (by decide) (by decide) (by decide)
  simpa [remRowOf, cRasterRowOf] using h

/-! ## Discovery characterization lemmas (claim C4) -/

/-- Membership in set-style accumulation. -/
theorem mem_dedupAppend (a s : String) (acc : List String) :
    a ∈ dedupAppend acc s ↔ a ∈ acc ∨ a = s := by
  unfold dedupAppend
  by_cases h : s ∈ acc
  · simp only [h, if_true]
    exact ⟨Or.inl, fun x => x.elim id fun hx => hx ▸ h⟩
  · simp [h, List.mem_append]

/-- Membership in a fold of set-style accumulation. -/
theorem mem_foldl_dedupAppend (l : List String) :
    ∀ (acc : List String) (a : String),
      a ∈ l.foldl dedupAppend acc ↔ a ∈ acc ∨ a ∈ l := by
  induction l with
  | nil => simp
  | cons s t ih =>
      intro acc a
      rw [List.foldl_cons, ih, mem_dedupAppend]
      simp [List.mem_cons, or_assoc]

/-- Membership in the S3 discovery fold over all object keys. -/
theorem mem_s3fold (objects : List String) :
    ∀ (acc : List String) (a : String),
      a ∈ objects.foldl
          (fun acc obj => (s3UnitPaths obj).foldl dedupAppend acc) acc ↔
        a ∈ acc ∨ ∃ obj ∈ objects, a ∈ s3UnitPaths obj := by
  induction objects with
  | nil => simp
  | cons o t ih =>
      intro acc a
      rw [List.foldl_cons, ih, mem_foldl_dedupAppend]
      simp only [List.mem_cons]
      constructor
      · rintro ((h | h) | ⟨obj, ho, hp⟩)
        · exact Or.inl h
        · exact Or.inr ⟨o, Or.inl rfl, h⟩
        · exact Or.inr ⟨obj, Or.inr ho, hp⟩
      · rintro (h | ⟨obj, (rfl | ho), hp⟩)
        · exact Or.inl (Or.inl h)
        · exact Or.inl (Or.inr hp)
        · exact Or.inr ⟨obj, ho, hp⟩

/-- A two-element-or-longer join is never the empty string. -/
theorem joinPath_ne_empty (x y : String) (t : List String) :
    joinPath (x :: y :: t) ≠ "" := by
  intro h
  have hlen : (joinPath (x :: y :: t)).length = 0 := by rw [h]; rfl
  rw [show joinPath (x :: y :: t) = x ++ "/" ++ joinPath (y :: t) from rfl] at hlen
  rw [String.length_append, String.length_append] at hlen
  have h1 : ("/" : String).length = 1 := rfl
  omega

/-- A prefix of length `i + 3` of a list longer than `i + 2` has at least two
elements. -/
theorem take_two_of_lt (l : List String) (i : Nat) (h : i + 2 < l.length) :
    ∃ x y t, l.take (i + 3) = x :: y :: t := by
  cases hL : l.take (i + 3) with
  | nil =>
      exfalso
      have := congrArg List.length hL
      simp only [List.length_take, List.length_nil] at this
      omega
  | cons x rest =>
      cases rest with
      | nil =>
          exfalso
          have := congrArg List.length hL
          simp only [List.length_take, List.length_cons, List.length_nil]
            at this
          omega
      | cons y t => exact ⟨x, y, t, rfl⟩

/-- Characterization of one key's qualifying prefixes: exactly the joins of
`parts[:i+3]` where segment `i` is an 8-digit code immediately followed by
`branches` with a further segment beneath it.  (The source's extra
`i + 1 < len(parts)` test and non-empty-string test are implied.) -/
theorem mem_s3UnitPaths (obj p : String) :
    p ∈ s3UnitPaths obj ↔
      ∃ i : Nat, i + 2 < (pySplitSlash obj).length ∧
        isDigit8 ((pySplitSlash obj).getD i "") = true ∧
        (pySplitSlash obj).getD (i + 1) "" = "branches" ∧
        p = joinPath ((pySplitSlash obj).take (i + 3)) := by
  simp only [s3UnitPaths]
  rw [List.mem_filterMap]
  constructor
  · rintro ⟨i, hi, hf⟩
    rw [List.mem_range] at hi
    split_ifs at hf with h1 h2
    · obtain ⟨hd, _, hb⟩ := h1
      rw [Option.some.injEq] at hf
      exact ⟨i, by omega, hd, hb, hf.symm⟩
  · rintro ⟨i, hlt, hd, hb, hp⟩
    refine ⟨i, List.mem_range.mpr (by omega), ?_⟩
    have hne : joinPath ((pySplitSlash obj).take (i + 3)) ≠ "" := by
      obtain ⟨x, y, t, hxy⟩ := take_two_of_lt (pySplitSlash obj) i hlt
      rw [hxy]
      exact joinPath_ne_empty x y t
    rw [if_pos ⟨hd, by omega, hb⟩, if_pos hne, hp]

/-- Characterization of the S3 branch of `_get_catchment_dirs`. -/
theorem mem_s3CatchmentDirs (bucket : String) (objects : List String)
    (r : String) :
    r ∈ s3CatchmentDirs bucket objects ↔
      ∃ obj ∈ objects, ∃ p ∈ s3UnitPaths obj,
        r = "s3://" ++ bucket ++ "/" ++ p := by
  unfold s3CatchmentDirs
  rw [List.mem_map]
  constructor
  · rintro ⟨d, hd, rfl⟩
    rcases (mem_s3fold objects [] d).mp hd with h | ⟨obj, ho, hp⟩
    · cases h
    · exact ⟨obj, ho, d, hp, rfl⟩
  · rintro ⟨obj, ho, p, hp, rfl⟩
    exact ⟨p, (mem_s3fold objects [] p).mpr (Or.inr ⟨obj, ho, hp⟩), rfl⟩

/-- Membership in a fold that appends a generated list per element. -/
theorem mem_foldl_append {α : Type} (f : α → List String) (l : List α) :
    ∀ (acc : List String) (a : String),
      a ∈ l.foldl (fun acc e => acc ++ f e) acc ↔
        a ∈ acc ∨ ∃ e ∈ l, a ∈ f e := by
  induction l with
  | nil => simp
  | cons e t ih =>
      intro acc a
      rw [List.foldl_cons, ih]
      simp only [List.mem_append, List.mem_cons]
      constructor
      · rintro ((h | h) | ⟨x, hx, hfx⟩)
        · exact Or.inl h
        · exact Or.inr ⟨e, Or.inl rfl, h⟩
        · exact Or.inr ⟨x, Or.inr hx, hfx⟩
      · rintro (h | ⟨x, (rfl | hx), hfx⟩)
        · exact Or.inl (Or.inl h)
        · exact Or.inl (Or.inr hfx)
        · exact Or.inr ⟨x, hx, hfx⟩

/-- Characterization of one root entry's contribution in the local branch:
the 8-digit check applies only to the immediate child of the root. -/
theorem mem_localUnitDirs (base : String) (entry : String × FsTree)
    (r : String) :
    r ∈ localUnitDirs base entry ↔
      entry.2.isDir = true ∧ isDigit8 entry.1 = true ∧
      ∃ tb, entry.2.child "branches" = some tb ∧ tb.isDir = true ∧
        ∃ c ∈ tb.childrenD, c.2.isDir = true ∧
          r = base ++ "/" ++ entry.1 ++ "/branches/" ++ c.1 := by
  unfold localUnitDirs
  by_cases h1 : entry.2.isDir && isDigit8 entry.1
  · rw [if_pos h1]
    rw [Bool.and_eq_true] at h1
    cases hc : entry.2.child "branches" with
    | none =>
        dsimp only
        simp only [List.not_mem_nil, false_iff]
        rintro ⟨_, _, tb, htb, _⟩
        cases htb
    | some tb =>
        dsimp only
        by_cases h2 : tb.isDir
        · rw [if_pos h2, List.mem_map]
          constructor
          · rintro ⟨c, hcm, rfl⟩
            rw [List.mem_filter] at hcm
            exact ⟨h1.1, h1.2, tb, rfl, h2, c, hcm.1, hcm.2, rfl⟩
          · rintro ⟨_, _, tb', htb', _, c, hcm, hdir, rfl⟩
            rw [Option.some.injEq] at htb'
            subst htb'
            exact ⟨c, List.mem_filter.mpr ⟨hcm, hdir⟩, rfl⟩
        · rw [if_neg h2]
          simp only [List.not_mem_nil, false_iff]
          rintro ⟨_, _, tb', htb', hdir', _⟩
          rw [Option.some.injEq] at htb'
          exact h2 (htb' ▸ hdir')
  · rw [if_neg h1]
    simp only [List.not_mem_nil, false_iff]
    rintro ⟨ha, hb, _⟩
    exact h1 (by rw [Bool.and_eq_true]; exact ⟨ha, hb⟩)

/-- Characterization of the local branch of `_get_catchment_dirs`. -/
theorem mem_localCatchmentDirs (base : String) (root : FsTree) (r : String) :
    r ∈ localCatchmentDirs base root ↔
      ∃ entry ∈ root.childrenD, entry.2.isDir = true ∧
        isDigit8 entry.1 = true ∧
        ∃ tb, entry.2.child "branches" = some tb ∧ tb.isDir = true ∧
          ∃ c ∈ tb.childrenD, c.2.isDir = true ∧
            r = base ++ "/" ++ entry.1 ++ "/branches/" ++ c.1 := by
  unfold localCatchmentDirs
  rw [mem_foldl_append (localUnitDirs base) root.childrenD []]
  simp only [List.not_mem_nil, false_or]
  constructor
  · rintro ⟨e, he, hm⟩
    obtain ⟨h1, h2, h3⟩ := (mem_localUnitDirs base e r).mp hm
    exact ⟨e, he, h1, h2, h3⟩
  · rintro ⟨e, he, h1, h2, h3⟩
    exact ⟨e, he, (mem_localUnitDirs base e r).mpr ⟨h1, h2, h3⟩⟩

/-- The synthetic tree of the claim: `12345678/branches/unitA/...` and
`12345678/nope/unitB/...`. -/
def synthTree : FsTree :=
  .dir [("12345678", .dir
    [("branches", .dir [("unitA", .dir [("f1", .file)])]),
     ("nope", .dir [("unitB", .dir [("f2", .file)])])])]

/-- A tree whose 8-digit region directory is nested one level below the
root: `deep/12345678/branches/unitC/f`. -/
def nestedTree : FsTree :=
  .dir [("deep", .dir [("12345678", .dir
    [("branches", .dir [("unitC", .dir [("f", .file)])])])])]

/-- C4 counterexample: on the layout `deep/12345678/branches/unitC/f` the
segment-based rule of the claim qualifies `unitC` — and the remote backend
discovers it (second conjunct) — but the local backend discovers nothing,
because its 8-digit check applies only to immediate children of the root.
So discovery is NOT governed by the same "some path segment" rule under both
backends, as the claim states. -/
theorem C4_counterexample :
    localCatchmentDirs "root" nestedTree = [] ∧
    s3CatchmentDirs "b" ["deep/12345678/branches/unitC/f"] =
      ["s3://b/deep/12345678/branches/unitC"] := by
  constructor <;> decide

/-- C4 (amended): the remote backend discovers exactly the prefixes
`parts[:i+3]` of listed object keys where segment `i` is an 8-digit code,
segment `i+1` is literally `branches`, and a further segment exists beneath
it; the local backend restricts the 8-digit segment to immediate child
directories of the root (with `branches` directly below it and the unit
directories below that).  On the synthetic tree
`12345678/branches/unitA/...` + `12345678/nope/unitB/...`, both backends
discover exactly `unitA`. -/
theorem C4_discovery_characterized :
    (∀ (bucket : String) (objects : List String) (r : String),
        r ∈ s3CatchmentDirs bucket objects ↔
          ∃ obj ∈ objects, ∃ i : Nat,
            i + 2 < (pySplitSlash obj).length ∧
            isDigit8 ((pySplitSlash obj).getD i "") = true ∧
            (pySplitSlash obj).getD (i + 1) "" = "branches" ∧
            r = "s3://" ++ bucket ++ "/" ++
                joinPath ((pySplitSlash obj).take (i + 3))) ∧
    (∀ (base : String) (root : FsTree) (r : String),
        r ∈ localCatchmentDirs base root ↔
          ∃ entry ∈ root.childrenD, entry.2.isDir = true ∧
            isDigit8 entry.1 = true ∧
            ∃ tb, entry.2.child "branches" = some tb ∧ tb.isDir = true ∧
              ∃ c ∈ tb.childrenD, c.2.isDir = true ∧
                r = base ++ "/" ++ entry.1 ++ "/branches/" ++ c.1) ∧
    localCatchmentDirs "root" synthTree = ["root/12345678/branches/unitA"] ∧
    s3CatchmentDirs "b"
        ["12345678/branches/unitA/f1", "12345678/nope/unitB/f2"] =
      ["s3://b/12345678/branches/unitA"] := by
  refine ⟨?_, mem_localCatchmentDirs, by decide, by decide⟩
  intro bucket objects r
  rw [mem_s3CatchmentDirs]
  constructor
  · rintro ⟨obj, ho, p, hp, rfl⟩
    obtain ⟨i, h1, h2, h3, rfl⟩ := (mem_s3UnitPaths obj p).mp hp
    exact ⟨obj, ho, i, h1, h2, h3, rfl⟩
  · rintro ⟨obj, ho, i, h1, h2, h3, hr⟩
    exact ⟨obj, ho, joinPath ((pySplitSlash obj).take (i + 3)),
      (mem_s3UnitPaths obj _).mpr ⟨i, h1, h2, h3, rfl⟩, hr⟩
